import Mathlib

/-!
Verification development for the placement-demo-notebook repository.

The development shallowly embeds the device-flow client (`src/demo/device.py`),
the placement status poller (`src/demo/condor.py`) and the token-state
inspector (`src/demo/common.py`).  Python machine behaviour is made explicit:
fallible operations return `Except` with the Python exception kind carried in
the error, dictionaries become association lists, wall-clock times become
rationals, and each network/clock interaction becomes an explicit parameter
(the response body the server sent, the value `time.time()` returned).
-/

namespace PlacementDemo

/-- Python exception classes relevant to the embedded code paths.  Note that
`IndexError` and `KeyError` are distinct classes in Python (both subclass
`LookupError`, but an `except IndexError` clause does not catch `KeyError`). -/
inductive PyExc
  | indexError
  | keyError
  | typeError
  | valueError
  | attributeError
deriving DecidableEq, Repr

/-- JSON values as produced by `json.loads` / `response.json()`. -/
inductive Json
  | null
  | bool (b : Bool)
  | num (q : ℚ)
  | str (s : String)
  | arr (elems : List Json)
  | obj (fields : List (String × Json))

/-- Dictionary lookup on a decoded JSON object (`rj[key]` / `rj.get(key)`),
first binding wins, as for a Python dict built from distinct keys. -/
def jlookup (kvs : List (String × Json)) (key : String) : Option Json :=
  (kvs.find? (fun p => p.1 == key)).map (fun p => p.2)

/-- Python `float(x)` applied to a JSON-decoded value: numbers pass through,
booleans are 1/0, strings go through the runtime's string-to-float parser
(modelled by the parameter `floatParse`; an unparsable string raises
`ValueError`), anything else raises `TypeError`. -/
def pyFloat (floatParse : String → Option ℚ) : Json → Except PyExc ℚ
  | .num q => .ok q
  | .bool b => .ok (if b then 1 else 0)
  | .str s =>
    match floatParse s with
    | some q => .ok q
    | none => .error .valueError
  | _ => .error .typeError

/-- Python `int(x)` applied to a JSON-decoded value: numbers truncate toward
zero, booleans are 1/0, strings go through `intParse` (unparsable raises
`ValueError`), anything else raises `TypeError`. -/
def pyInt (intParse : String → Option Int) : Json → Except PyExc Int
  | .num q => .ok (Int.tdiv q.num q.den)
  | .bool b => .ok (if b then 1 else 0)
  | .str s =>
    match intParse s with
    | some n => .ok n
    | none => .error .valueError
  | _ => .error .typeError

/-- Python `x.lower()` on a JSON-decoded value: defined on strings only
(ASCII lowering suffices for the literals the client compares against);
any non-string raises `AttributeError`. -/
def pyLower : Json → Except PyExc String
  | .str s => .ok (String.mk (s.data.map Char.toLower))
  | _ => .error .attributeError

/-- Python `x.encode()` on a JSON-decoded value: a string encodes to its
bytes (Lean strings are always valid unicode, so this cannot fail); any
non-string raises `AttributeError`. -/
def pyEncode : Json → Except PyExc String
  | .str s => .ok s
  | _ => .error .attributeError

/-! ## Device-flow client (`src/demo/device.py`) -/

/-- The `DeviceClientError` exception hierarchy of `device.py`, plus
`uncaught` for a raw Python exception that escapes the method because no
`except` clause matches it. -/
inductive DeviceClientExc
  | clientError
  | unexpectedOutput
  | timedOut
  | requestNotInProgress
  | accessDenied
  | uncaught (e : PyExc)
deriving DecidableEq, Repr

/-- The mutable state of a `DeviceClient` instance (the fields assigned in
`DeviceClient.__init__`; the constant `request_url` / `client_id`
configuration is omitted, it never varies).  String-typed fields hold the
raw JSON value the server sent, as Python's dynamic assignment does. -/
structure DeviceClient where
  device_code : Json := .str ""
  expires_at : ℚ := 0
  interval : Int := 0
  user_code : Json := .str ""
  verification_uri : Json := .str ""
  verification_uri_complete : Json := .str ""
  request_in_progress : Bool := false

/-- An HTTP response to a poll, already JSON-decoded (the claims under study
concern responses whose body is well-formed JSON; transport and JSON-decode
failures raise before the status-code dispatch and are out of scope here). -/
structure PollResponse where
  status_code : Int
  body : List (String × Json)

/-- Embedding of `DeviceClient.poll_for_token` from the status-code dispatch
on.  Returns `ok (none, st)` for the Python `return None` paths (including
the implicit `return None` when the status code is neither 400 nor 200),
`ok (some tok, st)` for a returned token, and `error` for a raised exception.
The returned state is the (possibly mutated) client. -/
def poll_for_token (st : DeviceClient) (resp : PollResponse) :
    Except DeviceClientExc (Option String × DeviceClient) :=
  if !st.request_in_progress then .error .requestNotInProgress
  else if resp.status_code = 400 then
    match jlookup resp.body "error" with
    | none => .error .unexpectedOutput
    | some ev =>
      match ev with
      | .str er =>
        if er = "authorization_pending" then .ok (none, st)
        else if er = "slow_down" then
          .ok (none, { st with interval := st.interval + 5 })
        else if er = "access_denied" then .error .accessDenied
        else if er = "expired_token" then .error .timedOut
        else .error .unexpectedOutput
      | _ => .error .unexpectedOutput
  else if resp.status_code = 200 then
    match jlookup resp.body "access_token" with
    | none => .error .unexpectedOutput
    | some tok =>
      match jlookup resp.body "token_type" with
      | none => .error .unexpectedOutput
      | some tt =>
        match pyLower tt with
        | .error e => .error (.uncaught e)
        | .ok low =>
          if low ≠ "placement" then .error .unexpectedOutput
          else
            match pyEncode tok with
            | .error _ => .error .unexpectedOutput
            | .ok b => .ok (some b, st)
  else .ok (none, st)

example :
    poll_for_token { request_in_progress := true }
      ⟨400, [("error", .str "slow_down")]⟩
      = .ok (none, { request_in_progress := true, interval := 5 }) := rfl

example :
    poll_for_token { request_in_progress := true }
      ⟨200, [("access_token", .str "T"), ("token_type", .str "Placement")]⟩
      = .ok (some "T", { request_in_progress := true }) := rfl

/-- Embedding of `DeviceClient.make_request` from the point where the
authorization response has been JSON-decoded into `body` (the earlier
transport / HTTP-status / JSON-decode failures raise before any field of the
session is touched).  `now` is the value `time.time()` returns on the
`expires_at` line.  Python assigns `self.<field>` one at a time inside a
`try` that catches only `KeyError` and `ValueError`, so on failure the
partially mutated client is kept: the error carries the client as the raised
exception leaves it.  `request_in_progress` is only ever written on the
all-fields-succeeded path. -/
def make_request (floatParse : String → Option ℚ) (intParse : String → Option Int)
    (st : DeviceClient) (now : ℚ) (body : List (String × Json)) :
    Except (DeviceClientExc × DeviceClient) DeviceClient :=
  match jlookup body "device_code" with
  | none => .error (.unexpectedOutput, st)
  | some dc =>
    let st1 := { st with device_code := dc }
    match jlookup body "expires_in" with
    | none => .error (.unexpectedOutput, st1)
    | some ei =>
      match pyFloat floatParse ei with
      | .error .valueError => .error (.unexpectedOutput, st1)
      | .error e => .error (.uncaught e, st1)
      | .ok q =>
        let st2 := { st1 with expires_at := now + q }
        match pyInt intParse ((jlookup body "interval").getD (.num 5)) with
        | .error .valueError => .error (.unexpectedOutput, st2)
        | .error e => .error (.uncaught e, st2)
        | .ok iv =>
          let st3 := { st2 with interval := iv }
          match jlookup body "user_code" with
          | none => .error (.unexpectedOutput, st3)
          | some uc =>
            let st4 := { st3 with user_code := uc }
            match jlookup body "verification_uri" with
            | none => .error (.unexpectedOutput, st4)
            | some vu =>
              let st5 := { st4 with
                verification_uri := vu,
                verification_uri_complete :=
                  (jlookup body "verification_uri_complete").getD vu }
              .ok { st5 with request_in_progress := true }

/-- Sequential `poll_for_token` calls on one client, threading the mutated
client through and stopping at the first raised exception (used to state
properties about a whole server-response sequence). -/
def pollMany (st : DeviceClient) : List PollResponse → Except DeviceClientExc DeviceClient
  | [] => .ok st
  | resp :: rest =>
    match poll_for_token st resp with
    | .error e => .error e
    | .ok (_, st1) => pollMany st1 rest

/-- Embedding of `DeviceClient.poll_for_token_loop`.  The loop reads the
clock once per iteration (`while time.time() < self.expires_at`) and then
polls; `trace` supplies, per iteration, that clock reading and the response
the server would give to that iteration's poll.  `none` means the trace was
exhausted with the loop still running; `some r` is the loop's outcome. -/
def loopGo (st : DeviceClient) : List (ℚ × PollResponse) → Option (Except DeviceClientExc String)
  | [] => none
  | (t, resp) :: rest =>
    if t < st.expires_at then
      match poll_for_token st resp with
      | .error e => some (.error e)
      | .ok (some tok, _) => some (.ok tok)
      | .ok (none, st1) => loopGo st1 rest
    else some (.error .timedOut)

/-- Entry point of `poll_for_token_loop`: the in-progress precondition check,
then the polling loop. -/
def poll_for_token_loop (st : DeviceClient) (trace : List (ℚ × PollResponse)) :
    Option (Except DeviceClientExc String) :=
  if !st.request_in_progress then some (.error .requestNotInProgress)
  else loopGo st trace

/-! ## Token-state inspector (`src/demo/common.py`) -/

/-- The `TokenState` enumeration of `common.py`. -/
inductive TokenState
  | MISSING
  | UNREADABLE
  | EXPIRED
  | OK
deriving DecidableEq, Repr

/-- Outcome of `token_path.read_bytes()`: the raw bytes (as a character
list), a `FileNotFoundError`, or another `OSError`. -/
inductive ReadResult
  | contents (bytes : List Char)
  | fileNotFoundError
  | osError

/-- Python `contents.split(b'.')`: split on every dot, keeping empty
segments, always at least one segment. -/
def splitOnDot : List Char → List (List Char)
  | [] => [[]]
  | c :: rest =>
    let r := splitOnDot rest
    if c = '.' then [] :: r
    else
      match r with
      | [] => [[c]]
      | seg :: segs => (c :: seg) :: segs

/-- Python `d[key]` on a JSON-decoded value: dictionary lookup on an object
(a missing key raises `KeyError`); subscripting any non-object JSON value
with a string raises `TypeError`. -/
def pyGetItem (j : Json) (key : String) : Except PyExc Json :=
  match j with
  | .obj kvs =>
    match jlookup kvs key with
    | some v => .ok v
    | none => .error .keyError
  | _ => .error .typeError

/-- Embedding of `get_token_state`.  `b64json` models
`json.loads(base64.urlsafe_b64decode(body + b'=='))` applied to the payload
segment; all its library failure modes (`binascii.Error`,
`json.JSONDecodeError`, `UnicodeDecodeError`) are subclasses of `ValueError`,
which the hypotheses of the theorems below record.  `floatParse` models
`float()` on strings, `now` is `time.time()`, and `read` is the outcome of
`read_bytes()`.  The single `try` around decode and claim extraction catches
exactly `IndexError` and `ValueError`; any other exception (in particular
`KeyError` and `TypeError`) escapes the function, modelled by `.error`. -/
def get_token_state (b64json : List Char → Except PyExc Json)
    (floatParse : String → Option ℚ) (now : ℚ) (read : ReadResult) :
    Except PyExc TokenState :=
  match read with
  | .fileNotFoundError => .ok .MISSING
  | .osError => .ok .UNREADABLE
  | .contents s =>
    let decoded : Except PyExc ℚ := do
      let body ←
        match (splitOnDot s)[1]? with
        | some b => Except.ok b
        | none => Except.error PyExc.indexError
      let bj ← b64json body
      let ev ← pyGetItem bj "exp"
      pyFloat floatParse ev
    match decoded with
    | .error e =>
      if e = .indexError ∨ e = .valueError then .ok .UNREADABLE
      else .error e
    | .ok expiration =>
      if expiration < now then .ok .EXPIRED else .ok .OK

/-! ## Placement status poller (`src/demo/condor.py`) -/

/-- One job record returned by the schedd query, projected to `JobStatus`
(always present on a queried job) and `HoldReasonCode` (absent unless the
job is held). -/
structure Job where
  jobStatus : Int
  holdReasonCode : Option Int
deriving DecidableEq, Repr

/-- Class constant `Placement.HOLD_REASON_CODE_SPOOLING_INPUT`. -/
def HOLD_REASON_CODE_SPOOLING_INPUT : Int := 16

/-- Class constant `Placement.MIN_DELAY_BETWEEN_UPDATES` (seconds). -/
def MIN_DELAY_BETWEEN_UPDATES : ℚ := 10

/-- Class constant `Placement.MAX_STATUS_WAIT` (seconds). -/
def MAX_STATUS_WAIT : ℚ := 60

/-- The `Placement._status` dictionary: one count per category, in the
key-insertion order of `Placement.__init__` (which `enumerate(..., start=1)`
turns into the status codes 1..8). -/
structure StatusCounts where
  idle : Nat
  running : Nat
  removed : Nat
  completed : Nat
  held : Nat
  transferring_output : Nat
  suspended : Nat
  transferring_input : Nat
deriving DecidableEq, Repr

/-- The inner per-job test of the recount loop in `Placement._update_status`
for the dictionary key `name` carrying status code `code`:
`transferring_input` counts jobs with status 5 and the spooling hold reason;
every other key counts jobs whose status equals its code, except that `held`
skips the spooling-hold jobs. -/
def countJobs (jobs : List Job) (name : String) (code : Int) : Nat :=
  jobs.countP (fun job =>
    if name = "transferring_input" then
      decide (job.jobStatus = 5
        ∧ job.holdReasonCode = some HOLD_REASON_CODE_SPOOLING_INPUT)
    else if job.jobStatus = code then
      decide (¬(name = "held"
        ∧ job.holdReasonCode = some HOLD_REASON_CODE_SPOOLING_INPUT))
    else false)

/-- The wholesale recount that `_update_status` performs on a successful
query: `for code, name in enumerate(self._status.keys(), start=1)` walks the
eight keys in insertion order, zeroing and recounting each. -/
def recount (jobs : List Job) : StatusCounts where
  idle := countJobs jobs "idle" 1
  running := countJobs jobs "running" 2
  removed := countJobs jobs "removed" 3
  completed := countJobs jobs "completed" 4
  held := countJobs jobs "held" 5
  transferring_output := countJobs jobs "transferring_output" 6
  suspended := countJobs jobs "suspended" 7
  transferring_input := countJobs jobs "transferring_input" 8

/-- The mutable status-tracking state of a `Placement` (the cluster id and
schedd handle never change and are irrelevant to the claims). -/
structure PlacementState where
  _status : StatusCounts
  status_last_update : ℚ
  status_next_update : ℚ
deriving DecidableEq, Repr

/-- The environment one `_update_status` call interacts with: the three
successive `time.time()` readings it can make and the outcome of
`self.ap.query(...)` (`Except.error ()` models a raised
`HTCondorException`). -/
structure UpdateEnv where
  now : ℚ
  t1 : ℚ
  t2 : ℚ
  queryResult : Except Unit (List Job)

/-- What one `_update_status` call did: how many remote queries it issued,
its boolean return value, and the placement state it leaves behind. -/
structure UpdateResult where
  queries : Nat
  success : Bool
  state : PlacementState
deriving Repr

/-- Embedding of `Placement._update_status`.  Skip without querying when not
forced and `now < status_next_update`; otherwise issue one query: on a raised
`HTCondorException` log and return `False` leaving all state untouched; on
success recount wholesale and stamp `status_last_update` / ten seconds ahead
for `status_next_update` from two further clock reads. -/
def update_status (st : PlacementState) (env : UpdateEnv) (force : Bool) : UpdateResult :=
  if force = false ∧ env.now < st.status_next_update then
    ⟨0, false, st⟩
  else
    match env.queryResult with
    | .error _ => ⟨1, false, st⟩
    | .ok jobs =>
      ⟨1, true,
        { _status := recount jobs,
          status_last_update := env.t1,
          status_next_update := env.t2 + MIN_DELAY_BETWEEN_UPDATES }⟩

/-- The `jobs_in_progress` property: the summed counts of the categories in
`Placement.IN_PROGRESS_STATUSES` (idle, running, transferring_input,
transferring_output), read from the cached counts without querying. -/
def jobs_in_progress (st : PlacementState) : Nat :=
  st._status.idle + st._status.running + st._status.transferring_input
    + st._status.transferring_output

/-- The distinguishable exits of the `monitor_jobs` polling loop. -/
inductive MonitorExit
  | stall
  | noJobs
  | endTime
deriving DecidableEq, Repr

/-- The environment one iteration of the `monitor_jobs` loop interacts with:
the update call's environment and the `now = time.time()` reading taken
right after the update returns. -/
structure IterEnv where
  upd : UpdateEnv
  now : ℚ

/-- One iteration of the `while True` body of `Placement.monitor_jobs` (the
infinite-budget case, where `end_time = time.time() + inf` makes the
`status_next_update > end_time` exit untakeable, so only the stall and
no-jobs exits remain).  Faithfully embeds the stall test of the source:
`time_since_last_update = self.status_last_update - now` followed by
`if time_since_last_update > self.MAX_STATUS_WAIT`. -/
def monitor_step (st : PlacementState) (env : IterEnv) : MonitorExit ⊕ PlacementState :=
  let r := update_status st env.upd false
  let st1 := r.state
  let time_since_last_update := st1.status_last_update - env.now
  if MAX_STATUS_WAIT < time_since_last_update then .inl .stall
  else if r.success = true ∧ jobs_in_progress st1 = 0 then .inl .noJobs
  else .inr st1

/-- Run the infinite-budget `monitor_jobs` loop along a finite trace of
iteration environments: `some exit` if the loop exits within the trace,
`none` if it is still looping when the trace runs out. -/
def monitor_run (st : PlacementState) : List IterEnv → Option MonitorExit
  | [] => none
  | env :: rest =>
    match monitor_step st env with
    | .inl ex => some ex
    | .inr st1 => monitor_run st1 rest

/-! ## Specification-side definitions used for refinement statements -/

/-- The eight status categories of a placement, named as in the spec. -/
inductive JobCategory
  | idle
  | running
  | removed
  | completed
  | held
  | transferring_output
  | suspended
  | transferring_input
deriving DecidableEq, Repr

/-- Specification-side classification of one job record, written from the
spec's words: each job belongs to the category whose status code matches its
status code (1 idle, 2 running, 3 removed, 4 completed, 5 held,
6 transferring_output, 7 suspended), except that a job with status code 5
and the spooling hold-reason code 16 belongs to `transferring_input` and not
to `held`. -/
def specClassify (job : Job) : Option JobCategory :=
  if job.jobStatus = 5 ∧ job.holdReasonCode = some 16 then some .transferring_input
  else if job.jobStatus = 1 then some .idle
  else if job.jobStatus = 2 then some .running
  else if job.jobStatus = 3 then some .removed
  else if job.jobStatus = 4 then some .completed
  else if job.jobStatus = 5 then some .held
  else if job.jobStatus = 6 then some .transferring_output
  else if job.jobStatus = 7 then some .suspended
  else none

/-- Specification-side count: how many of the returned job records a
from-scratch reclassification puts in the given category. -/
def specCount (jobs : List Job) (cat : JobCategory) : Nat :=
  jobs.countP (fun j => decide (specClassify j = some cat))

/-- A concrete stand-in for `json.loads(base64.urlsafe_b64decode(body + b'=='))`
that decodes the base64url segment `e30` to the empty JSON object (as the
real libraries do: `e30` is the unpadded base64url encoding of the two bytes
of an empty object) and fails with `ValueError` on everything else. -/
def b64jsonE30 : List Char → Except PyExc Json :=
  fun b => if b = ['e', '3', '0'] then .ok (.obj []) else .error .valueError

/-- Physically possible clocks for a run of the monitor loop starting with
the given `status_last_update`: every clock reading a `_update_status` call
may store as the new `status_last_update` precedes the `now` reading taken
at the stall check of its own and of every later iteration (wall-clock
readings are non-decreasing in program order). -/
def saneClocks : ℚ → List IterEnv → Prop
  | _, [] => True
  | last, env :: rest =>
    last ≤ env.now ∧ env.upd.t1 ≤ env.now ∧ saneClocks (max last env.upd.t1) rest

/-- A poll response the spec calls pending: HTTP 400 with
`error=authorization_pending` or `error=slow_down`. -/
def isPendingResp (r : PollResponse) : Prop :=
  r.status_code = 400
    ∧ (jlookup r.body "error" = some (.str "authorization_pending")
      ∨ jlookup r.body "error" = some (.str "slow_down"))

/-- A poll response the spec calls a success: HTTP 200 carrying an
`access_token` string and a `token_type` string that case-insensitively
equals `placement`. -/
def isSuccessResp (r : PollResponse) : Prop :=
  r.status_code = 200
    ∧ ∃ tok tt, jlookup r.body "access_token" = some (.str tok)
      ∧ jlookup r.body "token_type" = some (.str tt)
      ∧ String.mk (tt.data.map Char.toLower) = "placement"

/-- Specification-side restatement of the loop exit condition, from the
spec's words: walking the trace iteration by iteration, does the clock reach
`expires_at` before an HTTP 200 response is polled? -/
def expiresBeforeToken (ea : ℚ) : List (ℚ × PollResponse) → Bool
  | [] => false
  | (t, r) :: rest =>
    if t < ea then
      if r.status_code = 200 then false else expiresBeforeToken ea rest
    else true

/-! ## Theorems -/

/-- C10: with a session in progress, a response whose HTTP status is neither
200 nor 400 (with any well-formed JSON body) makes `poll_for_token` fall
through both dispatch branches and return Python's implicit `None` — the
same value as the pending outcome — raising nothing and leaving the client
unchanged. -/
theorem c10_poll_other_status_returns_none (st : DeviceClient) (resp : PollResponse)
    (hin : st.request_in_progress = true)
    (h400 : resp.status_code ≠ 400) (h200 : resp.status_code ≠ 200) :
    poll_for_token st resp = .ok (none, st) := by
  unfold poll_for_token
  simp [hin, h400, h200]

theorem c10_poll_other_status_returns_none_witness :
    ((500 : Int) ≠ 400) ∧ ((500 : Int) ≠ 200) ∧
      poll_for_token { request_in_progress := true }
        ⟨500, [("error", .str "server_error")]⟩
        = .ok (none, { request_in_progress := true }) :=
  ⟨by decide, by decide,
    c10_poll_other_status_returns_none { request_in_progress := true }
      ⟨500, [("error", .str "server_error")]⟩ rfl (by decide) (by decide)⟩

/-- C3 counterexample: the claim says every `error` value other than
`authorization_pending`, `access_denied` and `expired_token` fails with the
UnexpectedOutput error, but the concrete 400 response with
`error=slow_down` returns the "no token yet" outcome (with the interval
increased) and raises nothing. -/
theorem c3_counterexample_slow_down :
    poll_for_token { request_in_progress := true }
        ⟨400, [("error", .str "slow_down")]⟩
      = .ok (none, { request_in_progress := true, interval := 5 })
    ∧ poll_for_token { request_in_progress := true }
        ⟨400, [("error", .str "slow_down")]⟩
      ≠ .error .unexpectedOutput :=
  ⟨rfl, fun h => Except.noConfusion h⟩

/-- C3 (amended): with a session in progress, the 400-branch of
`poll_for_token` dispatches on the `error` value: missing key fails with the
UnexpectedOutput error; `authorization_pending` returns the no-token-yet
outcome unchanged; `slow_down` returns the no-token-yet outcome after adding
5 to the interval; `access_denied` fails with the AccessDenied error;
`expired_token` fails with the TimedOut error; every other value — any other
string, or any non-string JSON value — fails with the UnexpectedOutput
error. -/
theorem c3_poll_400_dispatch (st : DeviceClient) (body : List (String × Json))
    (hin : st.request_in_progress = true) :
    (jlookup body "error" = none →
      poll_for_token st ⟨400, body⟩ = .error .unexpectedOutput)
    ∧ (jlookup body "error" = some (.str "authorization_pending") →
      poll_for_token st ⟨400, body⟩ = .ok (none, st))
    ∧ (jlookup body "error" = some (.str "slow_down") →
      poll_for_token st ⟨400, body⟩
        = .ok (none, { st with interval := st.interval + 5 }))
    ∧ (jlookup body "error" = some (.str "access_denied") →
      poll_for_token st ⟨400, body⟩ = .error .accessDenied)
    ∧ (jlookup body "error" = some (.str "expired_token") →
      poll_for_token st ⟨400, body⟩ = .error .timedOut)
    ∧ (∀ er : String, jlookup body "error" = some (.str er) →
      er ≠ "authorization_pending" → er ≠ "slow_down" →
      er ≠ "access_denied" → er ≠ "expired_token" →
      poll_for_token st ⟨400, body⟩ = .error .unexpectedOutput)
    ∧ (∀ v : Json, jlookup body "error" = some v → (∀ s : String, v ≠ .str s) →
      poll_for_token st ⟨400, body⟩ = .error .unexpectedOutput) := by
  refine ⟨?_, ?_, ?_, ?_, ?_, ?_, ?_⟩ <;> unfold poll_for_token
  · intro h; simp [hin, h]
  · intro h; simp [hin, h]
  · intro h; simp [hin, h]
  · intro h; simp [hin, h]
  · intro h; simp [hin, h]
  · intro er h h1 h2 h3 h4; simp [hin, h, h1, h2, h3, h4]
  · intro v h hs
    simp only [hin, Bool.not_true, Bool.false_eq_true, if_false, if_pos rfl, h]
    cases v with
    | str s => exact absurd rfl (hs s)
    | null => rfl
    | bool b => rfl
    | num q => rfl
    | arr elems => rfl
    | obj fields => rfl

theorem c3_poll_400_dispatch_witness :
    poll_for_token { request_in_progress := true }
        ⟨400, [("error", .str "access_denied")]⟩
      = .error .accessDenied
    ∧ poll_for_token { request_in_progress := true }
        ⟨400, [("error", .str "proxy_error")]⟩
      = .error .unexpectedOutput :=
  ⟨(c3_poll_400_dispatch { request_in_progress := true }
      [("error", .str "access_denied")] rfl).2.2.2.1 rfl,
   (c3_poll_400_dispatch { request_in_progress := true }
      [("error", .str "proxy_error")] rfl).2.2.2.2.2.1 "proxy_error" rfl
      (by decide) (by decide) (by decide) (by decide)⟩

/-- C2: the token file `h.e30.s` — a three-segment token whose payload
segment decodes to the JSON object with no `exp` claim — makes
`get_token_state` raise `KeyError` past its boundary instead of returning a
TokenState: the `try` catches only `IndexError` and `ValueError`, and the
`KeyError` from `body_json["exp"]` is neither. -/
theorem c2_get_token_state_raises_keyError :
    get_token_state b64jsonE30 (fun _ => none) 0
        (.contents ['h', '.', 'e', '3', '0', '.', 's'])
      = .error .keyError := rfl

/-- C7: `_update_status` with `force=false` issues its single remote query
exactly when `now >= status_next_update` and is skipped without querying
otherwise; with `force=true` it always issues exactly one query; and after a
successful update a second unforced call whose clock reading is still below
the freshly stamped `status_next_update` issues no query. -/
theorem c7_update_status_gate (st : PlacementState) (env env2 : UpdateEnv) :
    ((update_status st env false).queries
      = if st.status_next_update ≤ env.now then 1 else 0)
    ∧ ((update_status st env true).queries = 1)
    ∧ ((update_status st env true).success = true →
        env2.now < (update_status st env true).state.status_next_update →
        (update_status (update_status st env true).state env2 false).queries = 0) := by
  refine ⟨?_, ?_, ?_⟩
  · unfold update_status
    by_cases h : env.now < st.status_next_update
    · simp [h, not_le.mpr h]
    · cases hq : env.queryResult <;> simp [h, hq, not_lt.mp h]
  · unfold update_status
    cases hq : env.queryResult <;> simp [hq]
  · intro hs h2
    generalize (update_status st env true).state = st1 at h2 ⊢
    unfold update_status
    simp [h2]

theorem c7_update_status_gate_witness :
    (update_status
        (update_status ⟨⟨0, 0, 0, 0, 0, 0, 0, 0⟩, 0, 0⟩ ⟨0, 3, 3, .ok []⟩ true).state
        ⟨5, 5, 5, .ok []⟩ false).queries = 0 := by
  refine (c7_update_status_gate ⟨⟨0, 0, 0, 0, 0, 0, 0, 0⟩, 0, 0⟩
    ⟨0, 3, 3, .ok []⟩ ⟨5, 5, 5, .ok []⟩).2.2 ?_ ?_
  · rfl
  · show (5 : ℚ) < 3 + MIN_DELAY_BETWEEN_UPDATES
    unfold MIN_DELAY_BETWEEN_UPDATES
    norm_num

/-- C8: when the remote query raises, `_update_status` returns `False` and
leaves the cached counts and both timestamps exactly as they were before the
call, whether or not the call was forced. -/
theorem c8_update_status_failure_preserves_state
    (st : PlacementState) (env : UpdateEnv) (force : Bool)
    (hfail : env.queryResult = .error ()) :
    (update_status st env force).success = false
    ∧ (update_status st env force).state = st := by
  unfold update_status
  by_cases h : force = false ∧ env.now < st.status_next_update
  · simp [h]
  · simp [h, hfail]

theorem c8_update_status_failure_preserves_state_witness :
    (update_status ⟨⟨3, 1, 0, 0, 0, 0, 0, 0⟩, 100, 110⟩ ⟨200, 201, 202, .error ()⟩ false).success
      = false
    ∧ (update_status ⟨⟨3, 1, 0, 0, 0, 0, 0, 0⟩, 100, 110⟩ ⟨200, 201, 202, .error ()⟩ false).state
      = ⟨⟨3, 1, 0, 0, 0, 0, 0, 0⟩, 100, 110⟩ :=
  c8_update_status_failure_preserves_state
    ⟨⟨3, 1, 0, 0, 0, 0, 0, 0⟩, 100, 110⟩ ⟨200, 201, 202, .error ()⟩ false rfl

lemma specClassify_idle_iff (j : Job) :
    specClassify j = some .idle ↔ j.jobStatus = 1 := by
  rcases j with ⟨js, hold⟩
  unfold specClassify
  split_ifs <;> simp_all

lemma specClassify_running_iff (j : Job) :
    specClassify j = some .running ↔ j.jobStatus = 2 := by
  rcases j with ⟨js, hold⟩
  unfold specClassify
  split_ifs <;> simp_all

lemma specClassify_removed_iff (j : Job) :
    specClassify j = some .removed ↔ j.jobStatus = 3 := by
  rcases j with ⟨js, hold⟩
  unfold specClassify
  split_ifs <;> simp_all

lemma specClassify_completed_iff (j : Job) :
    specClassify j = some .completed ↔ j.jobStatus = 4 := by
  rcases j with ⟨js, hold⟩
  unfold specClassify
  split_ifs <;> simp_all

lemma specClassify_held_iff (j : Job) :
    specClassify j = some .held
      ↔ j.jobStatus = 5 ∧ j.holdReasonCode ≠ some 16 := by
  rcases j with ⟨js, hold⟩
  unfold specClassify
  split_ifs <;> simp_all

lemma specClassify_transferring_output_iff (j : Job) :
    specClassify j = some .transferring_output ↔ j.jobStatus = 6 := by
  rcases j with ⟨js, hold⟩
  unfold specClassify
  split_ifs <;> simp_all

lemma specClassify_suspended_iff (j : Job) :
    specClassify j = some .suspended ↔ j.jobStatus = 7 := by
  rcases j with ⟨js, hold⟩
  unfold specClassify
  split_ifs <;> simp_all

lemma specClassify_transferring_input_iff (j : Job) :
    specClassify j = some .transferring_input
      ↔ j.jobStatus = 5 ∧ j.holdReasonCode = some 16 := by
  rcases j with ⟨js, hold⟩
  unfold specClassify
  split_ifs <;> simp_all

lemma countJobs_eq_specCount_idle (jobs : List Job) :
    countJobs jobs "idle" 1 = specCount jobs .idle := by
  unfold countJobs specCount
  refine List.countP_congr (fun j _ => ?_)
  rw [if_neg (by decide)]
  by_cases h : j.jobStatus = 1
  · rw [if_pos h]
    simp [decide_eq_decide, specClassify_idle_iff, h]
  · rw [if_neg h]
    simp [specClassify_idle_iff, h]

lemma countJobs_eq_specCount_running (jobs : List Job) :
    countJobs jobs "running" 2 = specCount jobs .running := by
  unfold countJobs specCount
  refine List.countP_congr (fun j _ => ?_)
  rw [if_neg (by decide)]
  by_cases h : j.jobStatus = 2
  · rw [if_pos h]
    simp [decide_eq_decide, specClassify_running_iff, h]
  · rw [if_neg h]
    simp [specClassify_running_iff, h]

lemma countJobs_eq_specCount_removed (jobs : List Job) :
    countJobs jobs "removed" 3 = specCount jobs .removed := by
  unfold countJobs specCount
  refine List.countP_congr (fun j _ => ?_)
  rw [if_neg (by decide)]
  by_cases h : j.jobStatus = 3
  · rw [if_pos h]
    simp [decide_eq_decide, specClassify_removed_iff, h]
  · rw [if_neg h]
    simp [specClassify_removed_iff, h]

lemma countJobs_eq_specCount_completed (jobs : List Job) :
    countJobs jobs "completed" 4 = specCount jobs .completed := by
  unfold countJobs specCount
  refine List.countP_congr (fun j _ => ?_)
  rw [if_neg (by decide)]
  by_cases h : j.jobStatus = 4
  · rw [if_pos h]
    simp [decide_eq_decide, specClassify_completed_iff, h]
  · rw [if_neg h]
    simp [specClassify_completed_iff, h]

lemma countJobs_eq_specCount_held (jobs : List Job) :
    countJobs jobs "held" 5 = specCount jobs .held := by
  unfold countJobs specCount
  refine List.countP_congr (fun j _ => ?_)
  rw [if_neg (by decide)]
  by_cases h : j.jobStatus = 5
  · rw [if_pos h]
    simp [decide_eq_decide, specClassify_held_iff, h, HOLD_REASON_CODE_SPOOLING_INPUT]
  · rw [if_neg h]
    simp [specClassify_held_iff, h]

lemma countJobs_eq_specCount_transferring_output (jobs : List Job) :
    countJobs jobs "transferring_output" 6 = specCount jobs .transferring_output := by
  unfold countJobs specCount
  refine List.countP_congr (fun j _ => ?_)
  rw [if_neg (by decide)]
  by_cases h : j.jobStatus = 6
  · rw [if_pos h]
    simp [decide_eq_decide, specClassify_transferring_output_iff, h]
  · rw [if_neg h]
    simp [specClassify_transferring_output_iff, h]

lemma countJobs_eq_specCount_suspended (jobs : List Job) :
    countJobs jobs "suspended" 7 = specCount jobs .suspended := by
  unfold countJobs specCount
  refine List.countP_congr (fun j _ => ?_)
  rw [if_neg (by decide)]
  by_cases h : j.jobStatus = 7
  · rw [if_pos h]
    simp [decide_eq_decide, specClassify_suspended_iff, h]
  · rw [if_neg h]
    simp [specClassify_suspended_iff, h]

lemma countJobs_eq_specCount_transferring_input (jobs : List Job) :
    countJobs jobs "transferring_input" 8 = specCount jobs .transferring_input := by
  unfold countJobs specCount
  refine List.countP_congr (fun j _ => ?_)
  rw [if_pos rfl]
  simp [decide_eq_decide, specClassify_transferring_input_iff,
    HOLD_REASON_CODE_SPOOLING_INPUT]

lemma recount_eq_specCount (jobs : List Job) :
    recount jobs
      = ⟨specCount jobs .idle, specCount jobs .running, specCount jobs .removed,
         specCount jobs .completed, specCount jobs .held,
         specCount jobs .transferring_output, specCount jobs .suspended,
         specCount jobs .transferring_input⟩ := by
  unfold recount
  rw [countJobs_eq_specCount_idle, countJobs_eq_specCount_running,
    countJobs_eq_specCount_removed, countJobs_eq_specCount_completed,
    countJobs_eq_specCount_held, countJobs_eq_specCount_transferring_output,
    countJobs_eq_specCount_suspended, countJobs_eq_specCount_transferring_input]

/-- C9: whenever `_update_status` performs its query successfully, the new
per-category counts equal a from-scratch spec-side reclassification of the
returned job records: each job is counted under the category whose status
code matches, except that status 5 with hold-reason 16 is counted under
`transferring_input` and not under `held`. -/
theorem c9_update_status_counts_are_reclassification
    (st : PlacementState) (env : UpdateEnv) (force : Bool) (jobs : List Job)
    (hok : env.queryResult = .ok jobs)
    (hq : force = true ∨ st.status_next_update ≤ env.now) :
    (update_status st env force).state._status
      = ⟨specCount jobs .idle, specCount jobs .running, specCount jobs .removed,
         specCount jobs .completed, specCount jobs .held,
         specCount jobs .transferring_output, specCount jobs .suspended,
         specCount jobs .transferring_input⟩ := by
  unfold update_status
  have hcond : ¬(force = false ∧ env.now < st.status_next_update) := by
    rcases hq with h | h
    · simp [h]
    · exact fun hc => absurd hc.2 (not_lt.mpr h)
  rw [if_neg hcond]
  simp [hok, recount_eq_specCount]

theorem c9_update_status_counts_are_reclassification_witness :
    (update_status ⟨⟨0, 0, 0, 0, 0, 0, 0, 0⟩, 0, 0⟩
        ⟨1, 2, 2, .ok [⟨1, none⟩, ⟨1, none⟩, ⟨2, none⟩, ⟨5, some 16⟩]⟩
        true).state._status
      = ⟨2, 1, 0, 0, 0, 0, 0, 1⟩ := by
  rw [c9_update_status_counts_are_reclassification _ _ _
    [⟨1, none⟩, ⟨1, none⟩, ⟨2, none⟩, ⟨5, some 16⟩] rfl (Or.inl rfl)]
  rfl

lemma update_status_last_update (st : PlacementState) (env : UpdateEnv) (force : Bool) :
    (update_status st env force).state.status_last_update = st.status_last_update
    ∨ (update_status st env force).state.status_last_update = env.t1 := by
  unfold update_status
  split_ifs
  · exact Or.inl rfl
  · cases env.queryResult <;> simp

lemma saneClocks_mono (envs : List IterEnv) :
    ∀ a b : ℚ, a ≤ b → saneClocks b envs → saneClocks a envs := by
  induction envs with
  | nil => exact fun a b _ _ => trivial
  | cons env rest ih =>
    intro a b hab h
    exact ⟨le_trans hab h.1, h.2.1,
      ih _ _ (max_le_max_right _ hab) h.2.2⟩

/-- Supporting lemma for C1: under physically possible clocks the stall exit
of `monitor_jobs` can never be taken, because the source computes
`time_since_last_update = self.status_last_update - now` (the subtraction
reversed), which is never positive, let alone above `MAX_STATUS_WAIT`. -/
lemma monitor_run_never_stalls (envs : List IterEnv) :
    ∀ st : PlacementState, saneClocks st.status_last_update envs →
      monitor_run st envs ≠ some .stall := by
  induction envs with
  | nil => intro st _ h; exact Option.noConfusion h
  | cons env rest ih =>
    intro st hsane
    unfold monitor_run monitor_step
    have hlast := update_status_last_update st env.upd false
    have hle : (update_status st env.upd false).state.status_last_update ≤ env.now := by
      rcases hlast with h | h <;> rw [h]
      · exact hsane.1
      · exact hsane.2.1
    have hnostall :
        ¬ MAX_STATUS_WAIT
          < (update_status st env.upd false).state.status_last_update - env.now := by
      unfold MAX_STATUS_WAIT
      have : (update_status st env.upd false).state.status_last_update - env.now ≤ 0 :=
        sub_nonpos.mpr hle
      linarith
    rw [if_neg hnostall]
    split_ifs with hdone
    · exact fun h => MonitorExit.noConfusion (Option.some.inj h)
    · refine ih _ ?_
      refine saneClocks_mono rest _ _ ?_ hsane.2.2
      rcases hlast with h | h <;> rw [h]
      · exact le_max_left _ _
      · exact le_max_right _ _

/-- C1: a concrete infinite-budget monitoring run in which every status
update fails: the last successful update is at time 0, and at the stall
checks the clock reads 70 and then 80 — more than `MAX_STATUS_WAIT = 60`
seconds without a successful update — yet the loop takes no exit at all
(in particular not the stall exit): the reversed subtraction
`status_last_update - now` evaluates to -70 and -80, never above 60. -/
theorem c1_monitor_keeps_looping_after_stall_threshold :
    monitor_run ⟨⟨1, 0, 0, 0, 0, 0, 0, 0⟩, 0, 10⟩
        [⟨⟨70, 70, 70, .error ()⟩, 70⟩, ⟨⟨80, 80, 80, .error ()⟩, 80⟩]
      = none := by
  norm_num [monitor_run, monitor_step, update_status, jobs_in_progress,
    MAX_STATUS_WAIT]

/-- C4 counterexample: a client with an earlier session in progress receives
an authorization response missing the required `user_code` field;
`make_request` fails with the UnexpectedOutput error but the client it
leaves behind still has `request_in_progress = true`, not false as the claim
demands (the flag is simply never reset on the failure path). -/
theorem c4_counterexample_in_progress_kept :
    make_request (fun _ => none) (fun _ => none)
        { request_in_progress := true } 0
        [("device_code", Json.str "D"), ("expires_in", Json.num 600),
         ("verification_uri", Json.str "U")]
      = .error (.unexpectedOutput,
          { device_code := Json.str "D", expires_at := 0 + 600, interval := 5,
            user_code := Json.str "", verification_uri := Json.str "",
            verification_uri_complete := Json.str "",
            request_in_progress := true })
    ∧ (DeviceClient.request_in_progress
        { device_code := Json.str "D", expires_at := 0 + 600, interval := 5,
          user_code := Json.str "", verification_uri := Json.str "",
          verification_uri_complete := Json.str "",
          request_in_progress := true }) = true :=
  ⟨rfl, rfl⟩

/-- C4 (amended): when every required field (`device_code`, `expires_in`,
`user_code`, `verification_uri`) is present and well-formed (and the
optional `interval` converts), `make_request` populates every DeviceSession
field exactly from the response and sets `request_in_progress` true.  On
every failure path it leaves `request_in_progress` unchanged — false for a
fresh client, but still true when an earlier session was in progress — and
a missing required field (the fields before it well-formed) fails with the
UnexpectedOutput error. -/
theorem c4_make_request_session_fields
    (fp : String → Option ℚ) (ip : String → Option Int)
    (st : DeviceClient) (now : ℚ) (body : List (String × Json)) :
    (∀ dc ei q iv uc vu,
      jlookup body "device_code" = some dc →
      jlookup body "expires_in" = some ei →
      pyFloat fp ei = .ok q →
      pyInt ip ((jlookup body "interval").getD (.num 5)) = .ok iv →
      jlookup body "user_code" = some uc →
      jlookup body "verification_uri" = some vu →
      make_request fp ip st now body
        = .ok { device_code := dc, expires_at := now + q, interval := iv,
                user_code := uc, verification_uri := vu,
                verification_uri_complete :=
                  (jlookup body "verification_uri_complete").getD vu,
                request_in_progress := true })
    ∧ (∀ e st1, make_request fp ip st now body = .error (e, st1) →
        st1.request_in_progress = st.request_in_progress)
    ∧ (jlookup body "device_code" = none →
        ∃ st1, make_request fp ip st now body = .error (.unexpectedOutput, st1))
    ∧ (∀ dc, jlookup body "device_code" = some dc →
        jlookup body "expires_in" = none →
        ∃ st1, make_request fp ip st now body = .error (.unexpectedOutput, st1))
    ∧ (∀ dc ei q iv,
        jlookup body "device_code" = some dc →
        jlookup body "expires_in" = some ei →
        pyFloat fp ei = .ok q →
        pyInt ip ((jlookup body "interval").getD (.num 5)) = .ok iv →
        jlookup body "user_code" = none →
        ∃ st1, make_request fp ip st now body = .error (.unexpectedOutput, st1))
    ∧ (∀ dc ei q iv uc,
        jlookup body "device_code" = some dc →
        jlookup body "expires_in" = some ei →
        pyFloat fp ei = .ok q →
        pyInt ip ((jlookup body "interval").getD (.num 5)) = .ok iv →
        jlookup body "user_code" = some uc →
        jlookup body "verification_uri" = none →
        ∃ st1, make_request fp ip st now body = .error (.unexpectedOutput, st1)) := by
  refine ⟨?_, ?_, ?_, ?_, ?_, ?_⟩
  · intro dc ei q iv uc vu h1 h2 h3 h4 h5 h6
    unfold make_request
    simp only [h1, h2, h3, h4, h5, h6]
  · intro e st1 h
    unfold make_request at h
    repeat' split at h
    all_goals simp only [Except.error.injEq, Prod.mk.injEq, Except.ok.injEq] at h
    all_goals try obtain ⟨he, hst⟩ := h
    all_goals try subst hst
    all_goals simp_all
  · intro h1
    unfold make_request
    simp only [h1]
    exact ⟨_, rfl⟩
  · intro dc h1 h2
    unfold make_request
    simp only [h1, h2]
    exact ⟨_, rfl⟩
  · intro dc ei q iv h1 h2 h3 h4 h5
    unfold make_request
    simp only [h1, h2, h3, h4, h5]
    exact ⟨_, rfl⟩
  · intro dc ei q iv uc h1 h2 h3 h4 h5 h6
    unfold make_request
    simp only [h1, h2, h3, h4, h5, h6]
    exact ⟨_, rfl⟩

theorem c4_make_request_session_fields_witness :
    make_request (fun _ => none) (fun _ => none) {} 0
        [("device_code", Json.str "D"), ("expires_in", Json.num 600),
         ("user_code", Json.str "C"), ("verification_uri", Json.str "U")]
      = .ok { device_code := Json.str "D", expires_at := 0 + 600, interval := 5,
              user_code := Json.str "C", verification_uri := Json.str "U",
              verification_uri_complete := Json.str "U",
              request_in_progress := true } :=
  (c4_make_request_session_fields (fun _ => none) (fun _ => none) {} 0
      [("device_code", Json.str "D"), ("expires_in", Json.num 600),
       ("user_code", Json.str "C"), ("verification_uri", Json.str "U")]).1
    (Json.str "D") (Json.num 600) 600 5 (Json.str "C") (Json.str "U")
    rfl rfl rfl rfl rfl rfl

/-- C6: starting from a session with interval `I`, `N` consecutive
`slow_down` responses leave the session with interval `I + N * 5`: each
response adds 5 to the stored interval and the new value persists into the
next poll call; moreover no poll call that returns (rather than raises) ever
decreases the interval. -/
theorem c6_slow_down_grows_interval (st : DeviceClient)
    (hin : st.request_in_progress = true) :
    (∀ N : Nat,
      pollMany st (List.replicate N ⟨400, [("error", Json.str "slow_down")]⟩)
        = .ok { st with interval := st.interval + 5 * N })
    ∧ (∀ (st2 : DeviceClient) (resp : PollResponse) (out : Option String)
        (st3 : DeviceClient),
        poll_for_token st2 resp = .ok (out, st3) → st2.interval ≤ st3.interval) := by
  constructor
  · intro N
    induction N generalizing st with
    | zero => simp [pollMany]
    | succ n ih =>
      have hp : poll_for_token st ⟨400, [("error", Json.str "slow_down")]⟩
          = .ok (none, { st with interval := st.interval + 5 }) := by
        unfold poll_for_token
        simp [hin, jlookup]
      simp only [List.replicate_succ, pollMany, hp]
      rw [ih { st with interval := st.interval + 5 }
        (show ({ st with interval := st.interval + 5 } : DeviceClient).request_in_progress
          = true from hin)]
      have harith :
          ({ st with interval := st.interval + 5 } : DeviceClient).interval + 5 * (n : Int)
            = st.interval + 5 * ((n + 1 : Nat) : Int) := by
        show st.interval + 5 + 5 * (n : Int) = _
        push_cast
        ring
      rw [harith]
  · intro st2 resp out st3 h
    unfold poll_for_token at h
    repeat' split at h
    all_goals try simp only [Except.ok.injEq, Prod.mk.injEq] at h
    all_goals try obtain ⟨hout, hst⟩ := h
    all_goals try subst hst
    all_goals simp_all

theorem c6_slow_down_grows_interval_witness :
    pollMany { interval := 2, request_in_progress := true }
        (List.replicate 3 ⟨400, [("error", Json.str "slow_down")]⟩)
      = .ok { interval := 2 + 5 * (3 : Nat), request_in_progress := true } :=
  (c6_slow_down_grows_interval { interval := 2, request_in_progress := true } rfl).1 3

lemma poll_pending_keeps_session (st : DeviceClient) (r : PollResponse)
    (hin : st.request_in_progress = true) (hp : isPendingResp r) :
    ∃ st1, poll_for_token st r = .ok (none, st1)
      ∧ st1.request_in_progress = st.request_in_progress
      ∧ st1.expires_at = st.expires_at := by
  obtain ⟨h400, herr⟩ := hp
  rcases herr with h | h
  · refine ⟨st, ?_, rfl, rfl⟩
    unfold poll_for_token
    simp [hin, h400, h]
  · refine ⟨{ st with interval := st.interval + 5 }, ?_, rfl, rfl⟩
    unfold poll_for_token
    simp [hin, h400, h]

lemma poll_success_returns_token (st : DeviceClient) (r : PollResponse)
    (hin : st.request_in_progress = true) (hs : isSuccessResp r) :
    ∃ tok, poll_for_token st r = .ok (some tok, st) := by
  obtain ⟨h200, tok, tt, htok, htt, hlow⟩ := hs
  refine ⟨tok, ?_⟩
  unfold poll_for_token
  norm_num [hin, h200, htok, htt, pyLower, pyEncode, hlow]

lemma loopGo_timeout_dichotomy (ea : ℚ) (trace : List (ℚ × PollResponse)) :
    ∀ st : DeviceClient, st.request_in_progress = true → st.expires_at = ea →
      (∀ p ∈ trace, isPendingResp p.2 ∨ isSuccessResp p.2) →
      (∃ p ∈ trace, ea ≤ p.1) →
      (expiresBeforeToken ea trace = true →
        loopGo st trace = some (.error .timedOut))
      ∧ (expiresBeforeToken ea trace = false →
        ∃ tok, loopGo st trace = some (.ok tok)) := by
  induction trace with
  | nil =>
    intro st hin hea hresp hterm
    simp at hterm
  | cons p rest ih =>
    obtain ⟨t, r⟩ := p
    intro st hin hea hresp hterm
    by_cases hlt : t < ea
    · have hhead := hresp (t, r) (List.mem_cons_self _ _)
      rcases hhead with hp | hs
      · obtain ⟨st1, hpoll, hin1, hea1⟩ := poll_pending_keeps_session st r hin hp
        have hne200 : ¬ r.status_code = 200 := by
          rw [hp.1]; decide
        have hebt : expiresBeforeToken ea ((t, r) :: rest)
            = expiresBeforeToken ea rest := by
          simp only [expiresBeforeToken]
          rw [if_pos hlt, if_neg hne200]
        have hterm1 : ∃ q ∈ rest, ea ≤ q.1 := by
          rcases hterm with ⟨q, hq, hqle⟩
          rcases List.mem_cons.mp hq with rfl | hq1
          · exact absurd hqle (not_le.mpr hlt)
          · exact ⟨q, hq1, hqle⟩
        have hloop : loopGo st ((t, r) :: rest) = loopGo st1 rest := by
          simp only [loopGo]
          rw [hea, if_pos hlt, hpoll]
        have ihr := ih st1 (hin1.trans hin) (hea1.trans hea)
          (fun q hq => hresp q (List.mem_cons_of_mem _ hq)) hterm1
        constructor
        · intro h
          rw [hebt] at h
          rw [hloop]
          exact ihr.1 h
        · intro h
          rw [hebt] at h
          rw [hloop]
          exact ihr.2 h
      · obtain ⟨tok, hpoll⟩ := poll_success_returns_token st r hin hs
        have hebt : expiresBeforeToken ea ((t, r) :: rest) = false := by
          simp only [expiresBeforeToken]
          rw [if_pos hlt, if_pos hs.1]
        have hloop : loopGo st ((t, r) :: rest) = some (.ok tok) := by
          simp only [loopGo]
          rw [hea, if_pos hlt, hpoll]
        constructor
        · intro h
          rw [hebt] at h
          exact Bool.noConfusion h
        · exact fun _ => ⟨tok, hloop⟩
    · have hebt : expiresBeforeToken ea ((t, r) :: rest) = true := by
        simp only [expiresBeforeToken]
        rw [if_neg hlt]
      have hloop : loopGo st ((t, r) :: rest) = some (.error .timedOut) := by
        simp only [loopGo]
        rw [hea, if_neg hlt]
      constructor
      · exact fun _ => hloop
      · intro h
        rw [hebt] at h
        exact Bool.noConfusion h

/-- C5: in a run of `poll_for_token_loop` in which every polled response is
pending (`authorization_pending` or `slow_down`) or an HTTP 200 success, and
whose trace is long enough to settle the run, the loop fails with the
TimedOut error exactly when a clock reading with `now >= expires_at` is
reached before any 200 response, and returns the token otherwise — never
both, the two exits being the two sides of one dichotomy on the same run. -/
theorem c5_poll_loop_timeout_dichotomy (st : DeviceClient)
    (trace : List (ℚ × PollResponse))
    (hin : st.request_in_progress = true)
    (hresp : ∀ p ∈ trace, isPendingResp p.2 ∨ isSuccessResp p.2)
    (hterm : ∃ p ∈ trace, st.expires_at ≤ p.1) :
    (expiresBeforeToken st.expires_at trace = true →
      poll_for_token_loop st trace = some (.error .timedOut))
    ∧ (expiresBeforeToken st.expires_at trace = false →
      ∃ tok, poll_for_token_loop st trace = some (.ok tok)) := by
  have h := loopGo_timeout_dichotomy st.expires_at trace st hin rfl hresp hterm
  unfold poll_for_token_loop
  simpa [hin] using h

theorem c5_poll_loop_timeout_dichotomy_witness :
    ∃ tok, poll_for_token_loop { expires_at := 100, request_in_progress := true }
        [(0, ⟨400, [("error", Json.str "authorization_pending")]⟩),
         (50, ⟨200, [("access_token", Json.str "T"),
                     ("token_type", Json.str "placement")]⟩),
         (120, ⟨400, [("error", Json.str "authorization_pending")]⟩)]
      = some (.ok tok) := by
  refine (c5_poll_loop_timeout_dichotomy _ _ rfl ?_ ?_).2 ?_
  · intro p hp
    rcases List.mem_cons.mp hp with rfl | hp
    · exact Or.inl ⟨rfl, Or.inl rfl⟩
    rcases List.mem_cons.mp hp with rfl | hp
    · exact Or.inr ⟨rfl, "T", "placement", rfl, rfl, rfl⟩
    rcases List.mem_cons.mp hp with rfl | hp
    · exact Or.inl ⟨rfl, Or.inl rfl⟩
    · exact absurd hp (List.not_mem_nil _)
  · refine ⟨(120, ⟨400, [("error", Json.str "authorization_pending")]⟩), ?_, ?_⟩
    · simp
    · norm_num
  · norm_num [expiresBeforeToken]

end PlacementDemo
